import Mathlib

/-!
Verification development for the bucket-style allocator in src/xmalloc.c.

The C source is shallowly embedded as executable Lean definitions:
machine integers become Nat (the few places where a C cast or fixed
width matters are noted next to the definition), C loops become
fuel-indexed structural recursions (the fuel never runs out on the
executions considered here; exhaustion models non-termination of the
corresponding C loop), and the per-chunk bitmap of 2497 64-bit words
is packed into a single Nat whose word w occupies bits [64*w, 64*w+64),
so that every word-level operation of the source corresponds to an
arithmetic operation on the packed value.
-/

set_option maxRecDepth 40000

/-! ### Preprocessor definitions and constants (xmalloc.c lines 70-186) -/

/-- BUCKET_NUM: total number of buckets. -/
def BUCKET_NUM : Nat := 21

/-- BUCKET_MIN: minimum size of a bucket. -/
def BUCKET_MIN : Nat := 8

/-- BUCKET_MAX: maximum size of a bucket. -/
def BUCKET_MAX : Nat := 8192

/-- ARENA_NUM: the number of arenas. -/
def ARENA_NUM : Nat := 8

/-- SMALL_PAGE: the page size for mmap. -/
def SMALL_PAGE : Nat := 4096

/-- ALLOC_CHUNK: the size unit allocated for each mmap. -/
def ALLOC_CHUNK : Nat := 2097152

/-- BITMAP_LONGS: the number of 64-bit words of a chunk bitmap. -/
def BITMAP_LONGS : Nat := 2497

/-- c_Non_Bucket_Flag: flag byte of a large (non-bucket) allocation. -/
def c_Non_Bucket_Flag : Nat := 0xFF

/-- c_Non_Bucket_Metadata_Size: one flag byte plus a size_t. -/
def c_Non_Bucket_Metadata_Size : Nat := 0x09

/-- c_Bucket_Metadata_Size: one flag byte plus a uint32_t. -/
def c_Bucket_Metadata_Size : Nat := 0x05

/-- c_64_MSB_High: only bit 63 set. -/
def c_64_MSB_High : Nat := 0x8000000000000000

/-- c_64_All_High: all 64 bits set. -/
def c_64_All_High : Nat := 0xFFFFFFFFFFFFFFFF

/-- c_Bucket_Sizes: the 21 bucket sizes. -/
def c_Bucket_Sizes : List Nat :=
  [8, 12, 16, 24, 32, 48, 64, 96,
   128, 192, 256, 384, 512, 768, 1024, 1536,
   2048, 3072, 4096, 6144, 8192]

/-- c_MMAP_Chunks: number of ALLOC_CHUNKs mapped per bucket index. -/
def c_MMAP_Chunks : List Nat :=
  [1, 1, 1, 1, 2, 2, 2, 2,
   4, 4, 4, 4, 8, 8, 8, 8,
   16, 16, 16, 16, 32]

/-- Size of struct page_header on an LP64 target: uint8_t size at
offset 0, 7 bytes padding, page_header* next_page at offset 8,
uint32_t last_offset at offset 16, 4 bytes padding, and
uint64_t bitmap[2497] at offset 24, hence 24 + 2497*8 = 20000 bytes. -/
def sizeof_page_header : Nat := 24 + BITMAP_LONGS * 8

/-- Per-slot stride: c_Bucket_Sizes[bucket_i] + c_Bucket_Metadata_Size. -/
def slot_stride (bucket_i : Nat) : Nat :=
  c_Bucket_Sizes[bucket_i]! + c_Bucket_Metadata_Size

/-- Bytes mapped for one chunk of a bucket: c_MMAP_Chunks[bucket_i] * ALLOC_CHUNK. -/
def chunk_bytes (bucket_i : Nat) : Nat :=
  c_MMAP_Chunks[bucket_i]! * ALLOC_CHUNK

/-- The bitmap_size local of pop_bucket (xmalloc.c line 327): the number
of usable slots of a chunk of the given bucket. -/
def bitmap_size (bucket_i : Nat) : Nat :=
  (chunk_bytes bucket_i - sizeof_page_header) / slot_stride bucket_i

/-! ### Encoded size functions (xmalloc.c lines 217-252) -/

/-- The while loop of parse_header_size: starting from size_p, double
powertwo times (while (powertwo--) size_p *= 2). -/
def parse_pow : Nat → Nat → Nat
  | 0, size_p => size_p
  | powertwo + 1, size_p => parse_pow powertwo (size_p * 2)

/-- parse_header_size (xmalloc.c line 217): decode the one-byte encoded
size; the top bit is the intermediate marker, the low seven bits the
power, and the result is size_p + intermediate * size_p / 2. -/
def parse_header_size (size : Nat) : Nat :=
  let intermediate := size >>> 0x07
  let powertwo := size &&& 0x7F
  let size_p := parse_pow powertwo 0x1
  size_p + intermediate * size_p / 2

/-- The while loop of gen_header_size: count halvings until size is 1
(while (size != 1) { powertwo++; size /= 2; }).  The fuel 64 covers
every size_t value; the C loop would not terminate on size = 0, which
is excluded by the assert(size >= BUCKET_MIN) of the source. -/
def gen_pow : Nat → Nat → Nat → Nat
  | 0, _, powertwo => powertwo
  | fuel + 1, size, powertwo =>
    if size = 0x01 then powertwo else gen_pow fuel (size / 0x2) (powertwo + 1)

/-- gen_header_size (xmalloc.c line 237): encode a bucket size in one
byte; 0x80 marks sizes divisible by 3 (the intermediate classes). -/
def gen_header_size (size : Nat) : Nat :=
  let intermediate := if size % 0x3 = 0 then 0x80 else 0x00
  intermediate ||| gen_pow 64 size 0x00

/-! ### Large (non-bucket) mmap path (xmalloc.c lines 289-312) -/

/-- Result of mmap_non_bucket: the mapping length, the bytes written
into the mapping (address 0 is the mapping base; the size_t store at
offset 0 is little-endian, as on the x86-64 target of the source; all
other bytes of the fresh anonymous mapping are zero), and the offset
of the pointer handed back to the caller. -/
structure LargeMapping where
  mapSize : Nat
  byteAt : Nat → Nat
  retOff : Nat

/-- mmap_non_bucket (xmalloc.c line 289): add the 9 metadata bytes,
round up to a multiple of SMALL_PAGE exactly as the source does, store
the total size in the first 8 bytes and c_Non_Bucket_Flag at offset 8,
and return the pointer at offset 9. -/
def mmap_non_bucket (size0 : Nat) : LargeMapping :=
  let size1 := size0 + c_Non_Bucket_Metadata_Size
  let size := ((size1 / SMALL_PAGE) + (if size1 % SMALL_PAGE = 0 then 0x0 else 0x1)) * SMALL_PAGE
  { mapSize := size
    byteAt := fun a =>
      if a < 8 then size / 256 ^ a % 256
      else if a = 8 then c_Non_Bucket_Flag
      else 0
    retOff := c_Non_Bucket_Metadata_Size }

/-- Read back a little-endian 8-byte value from a byte map, as the
size_t load of xfree and xrealloc does at p - 9. -/
def read_u64 (m : Nat → Nat) (a : Nat) : Nat :=
  m a + m (a + 1) * 256 + m (a + 2) * 65536 + m (a + 3) * 16777216 +
  m (a + 4) * 4294967296 + m (a + 5) * 1099511627776 +
  m (a + 6) * 281474976710656 + m (a + 7) * 72057594037927936

/-! ### Bucket index selection in xmalloc (xmalloc.c lines 440-455) -/

/-- The while loop of xmalloc: advance bucket_i while
bytes > c_Bucket_Sizes[bucket_i] and bucket_i < BUCKET_NUM - 1.
The fuel 21 is enough for the guard bucket_i < 20 of the source. -/
def bucket_index_go (bytes : Nat) : Nat → Nat → Nat
  | 0, bucket_i => bucket_i
  | fuel + 1, bucket_i =>
    if c_Bucket_Sizes[bucket_i]! < bytes ∧ bucket_i < BUCKET_NUM - 1 then
      bucket_index_go bytes fuel (bucket_i + 1)
    else
      bucket_i

/-- The bucket index xmalloc settles on for a request of the given size. -/
def bucket_index (bytes : Nat) : Nat := bucket_index_go bytes 21 0

/-- Dispatch outcome of xmalloc. -/
inductive AllocPath where
  | large
  | bucket (bucket_i : Nat)
deriving DecidableEq

/-- xmalloc (xmalloc.c line 440): requests above BUCKET_MAX go to
mmap_non_bucket, everything else pops from the selected bucket. -/
def xmalloc_select (bytes : Nat) : AllocPath :=
  if BUCKET_MAX < bytes then AllocPath.large
  else AllocPath.bucket (bucket_index bytes)

/-! ### xrealloc policy (xmalloc.c lines 505-560) -/

/-- Action xrealloc decides on.  reallocMove newBytes copyBytes stands
for the xmalloc-memcpy-xfree sequence of the source; fatal stands for
the fprintf-exit(1) path, which performs no allocation, no copy and no
free. -/
inductive RAction where
  | retNull
  | keep
  | reallocMove (newBytes copyBytes : Nat)
  | fatal
deriving DecidableEq

/-- Large branch of xrealloc (xmalloc.c lines 516-531): prev_bytes is
the size_t read at prev - 9, i.e. the whole mapping length including
the 9 metadata bytes. -/
def xrealloc_large_act (prev_bytes bytes : Nat) : RAction :=
  if prev_bytes < bytes ∨ bytes < prev_bytes * 3 / 4 then
    RAction.reallocMove bytes (if bytes < prev_bytes then bytes else prev_bytes)
  else
    RAction.keep

/-- Bucket branch of xrealloc (xmalloc.c lines 546-559): prev_bytes is
the decoded class size of the chunk holding prev. -/
def xrealloc_bucket_act (prev_bytes bytes : Nat) : RAction :=
  if BUCKET_MAX < bytes ∨ prev_bytes < bytes ∨
      (bytes < prev_bytes * 2 / 3 ∧ prev_bytes ≠ BUCKET_MIN) then
    RAction.reallocMove bytes (if bytes < prev_bytes then bytes else prev_bytes)
  else
    RAction.keep

/-- xrealloc (xmalloc.c line 505), as a function of the data it reads:
whether prev is null, the flag byte at prev - 1, the size_t at
prev - 9 (meaningful on the large path), and the encoded size byte of
the chunk holding prev (meaningful on the bucket path). -/
def xrealloc_act (isNull : Bool) (flag large_prev_bytes encoded_size bytes : Nat) : RAction :=
  if isNull then RAction.retNull
  else if flag = c_Non_Bucket_Flag then
    xrealloc_large_act large_prev_bytes bytes
  else if flag < ARENA_NUM then
    xrealloc_bucket_act (parse_header_size encoded_size) bytes
  else
    RAction.fatal

/-! ### Chunk bitmap representation

The uint64_t bitmap[2497] of a page_header is packed into one Nat:
word w of the C array occupies bits [64*w, 64*w+64) of the Nat.  Slot
offset o lives in word o / 64 at C-shift o % 64, and the source masks
that word with c_64_MSB_High >> shift, i.e. with bit 63 - o % 64 of
the word, which is bit 64 * (o / 64) + (63 - o % 64) of the packed Nat. -/

/-- Word bitmap_i of the packed bitmap, as the uint64_t value the C
reads as header->bitmap[bitmap_i]. -/
def word_of (bitmap w : Nat) : Nat :=
  (bitmap >>> (64 * w)) % 18446744073709551616

/-- Position in the packed bitmap of the bit the C addresses as
bitmap[o / 64] & (c_64_MSB_High >> (o % 64)). -/
def bit_pos (offset : Nat) : Nat :=
  64 * (offset / 64) + (63 - offset % 64)

/-- Claiming a slot (xmalloc.c line 397):
bitmap[bitmap_i] |= c_64_MSB_High >> bitmap_shift. -/
def set_slot (bitmap offset : Nat) : Nat :=
  bitmap ||| (1 <<< bit_pos offset)

/-- Releasing a slot (xmalloc.c line 427):
bitmap[bitmap_i] &= ~(c_64_MSB_High >> bitmap_shift), i.e. clear that
single bit of the packed value. -/
def clear_slot (bitmap offset : Nat) : Nat :=
  if bitmap.testBit (bit_pos offset) then bitmap - (1 <<< bit_pos offset) else bitmap

/-! ### The pop_bucket scan (xmalloc.c lines 342-377) -/

/-- Result of the inner scan of pop_bucket, together with the largest
bitmap word index the scan has read (ghost instrumentation: found and
offset are computed exactly as in the source, maxWord only records
which header->bitmap[bitmap_i] loads happened). -/
structure ScanRes where
  found : Bool
  offset : Nat
  maxWord : Nat
deriving DecidableEq

/-- The inner while loop of pop_bucket: while (offset != last_offset),
compute bitmap_i = offset / 64 and bitmap_shift = offset % 64, read
bitmap[bitmap_i]; if the cursor is on the MSB of an all-ones word,
skip 64 slots ahead (offset += 64, with no reduction modulo n); if the
cursor bit is free, stop; otherwise advance by one modulo n.  The fuel
argument only bounds the number of iterations; exhaustion models
non-termination of the C loop. -/
def scan_loop (bitmap last_offset n : Nat) : Nat → Nat → Nat → ScanRes
  | 0, offset, maxW => ⟨false, offset, maxW⟩
  | fuel + 1, offset, maxW =>
    if offset = last_offset then ⟨false, offset, maxW⟩
    else
      let bitmap_i := offset / 64
      let bitmap_shift := offset % 64
      let maxW := max maxW bitmap_i
      if bitmap_shift = 0 ∧ word_of bitmap bitmap_i = c_64_All_High then
        scan_loop bitmap last_offset n fuel (offset + 64) maxW
      else if word_of bitmap bitmap_i &&& (c_64_MSB_High >>> bitmap_shift) = 0 then
        ⟨true, offset, maxW⟩
      else
        scan_loop bitmap last_offset n fuel ((offset + 1) % n) maxW

/-- Fuel handed to each chunk scan; far more than the iterations any
execution below needs. -/
def SCAN_FUEL : Nat := 400000

/-! ### Bucket state machine (single class, single-threaded on arena 0)

The claims below drive the allocator from one thread whose favorite
arena never changes, so the trylock of pop_bucket always succeeds and
t_Favorite_Arenas stays 0; the mutexes serialize nothing and are not
modelled.  A page_header in memory becomes a Chunk record (base
address, encoded size byte, last_offset, packed bitmap); the
next_page linked list becomes the list order, head first, exactly the
order of g_Bucket_Stacks traversal. -/

/-- One mapped chunk: the page_header fields plus its base address. -/
structure Chunk where
  base : Nat
  size : Nat
  last_offset : Nat
  bitmap : Nat
deriving DecidableEq

/-- Lines 396-397 of pop_bucket: record the claimed offset in
last_offset and set its bitmap bit. -/
def claim_slot (ch : Chunk) (offset : Nat) : Chunk :=
  { ch with last_offset := offset, bitmap := set_slot ch.bitmap offset }

/-- Allocator state for one (bucket, arena) cell: the stack of chunks,
the bytes the allocator wrote into slot prefixes (mem32 for the
4-byte self-offset stores, mem8 for the 1-byte arena stamps, both
association lists keyed by absolute address, most recent store
first), and the base address the next fresh mmap returns. -/
structure AState where
  stack : List Chunk
  mem32 : List (Nat × Nat)
  mem8 : List (Nat × Nat)
  nextBase : Nat
deriving DecidableEq

/-- Load from one of the store maps; an address never written reads as
0, the fill of a fresh anonymous mapping. -/
def load (m : List (Nat × Nat)) (a : Nat) : Nat :=
  ((m.find? fun e => e.1 == a).map fun e => e.2).getD 0

/-- The outer while (header) loop of pop_bucket: scan each chunk in
stack order, starting at (last_offset + 1) % bitmap_size, and claim
the first free slot found; return the updated stack together with the
base of the chosen chunk and the claimed offset, or none when every
chunk was scanned without a find (the header == NULL exit). -/
def pop_walk (n : Nat) : List Chunk → Option (List Chunk × Nat × Nat)
  | [] => none
  | ch :: rest =>
    let r := scan_loop ch.bitmap ch.last_offset n SCAN_FUEL ((ch.last_offset + 1) % n) 0
    if r.found then
      some (claim_slot ch r.offset :: rest, ch.base, r.offset)
    else
      match pop_walk n rest with
      | some (rest2, b, o) => some (ch :: rest2, b, o)
      | none => none

/-- mmap_bucket (xmalloc.c line 262) in the state model: a fresh
zero-filled mapping whose header gets the encoded bucket size; bitmap
and last_offset are the zeros of the anonymous mapping. -/
def mmap_bucket (bucket_i base : Nat) : Chunk :=
  { base := base, size := gen_header_size (c_Bucket_Sizes[bucket_i]!),
    last_offset := 0, bitmap := 0 }

/-- pop_bucket (xmalloc.c line 321) for the single-threaded arena-0
model: walk the stack; when nothing is free, mmap a new chunk, push it
as the new head and take its slot 0.  Afterwards write the slot
metadata: the 4-byte self-offset ptr - header at ptr, the arena byte
(0, the thread favorite) at ptr + 4, and return ptr + 5. -/
def pop_bucket (bucket_i : Nat) (st : AState) : AState × Nat :=
  let n := bitmap_size bucket_i
  match pop_walk n st.stack with
  | some (stack2, base, offset) =>
    let ptr := base + sizeof_page_header + offset * slot_stride bucket_i
    ({ stack := stack2
       mem32 := (ptr, ptr - base) :: st.mem32
       mem8 := (ptr + 4, 0) :: st.mem8
       nextBase := st.nextBase },
     ptr + 5)
  | none =>
    let header := claim_slot (mmap_bucket bucket_i st.nextBase) 0
    let ptr := header.base + sizeof_page_header + 0 * slot_stride bucket_i
    ({ stack := header :: st.stack
       mem32 := (ptr, ptr - header.base) :: st.mem32
       mem8 := (ptr + 4, 0) :: st.mem8
       nextBase := st.nextBase + chunk_bytes bucket_i },
     ptr + 5)

/-- The offset computation of push_bucket (xmalloc.c line 419):
((uint64_t)addr - (uint64_t)header + sizeof(page_header)) divided by
the slot stride, where addr is the freed pointer minus the 5 metadata
bytes.  (The uint32_t cast of the source never truncates here: chunks
are at most 64 MiB.) -/
def push_offset (bucket_i headerBase addr : Nat) : Nat :=
  (addr - headerBase + sizeof_page_header) / slot_stride bucket_i

/-- Effect of push_bucket on the chunk it receives: clear the bitmap
bit at the computed offset (lines 419-427). -/
def push_chunk (bucket_i addr : Nat) (ch : Chunk) : Chunk :=
  { ch with bitmap := clear_slot ch.bitmap (push_offset bucket_i ch.base addr) }

/-- push_bucket (xmalloc.c line 415) acting on the stack: the C
mutates the header in place; in the list model that is the chunk whose
base address equals the header pointer xfree recovered. -/
def push_bucket (bucket_i headerBase addr : Nat) (stack : List Chunk) : List Chunk :=
  stack.map fun ch => if ch.base = headerBase then push_chunk bucket_i addr ch else ch

/-- The while loop of xfree that finds the bucket index whose size
equals the decoded header size (xmalloc.c lines 493-497). -/
def find_bucket_go (bucket_size : Nat) : Nat → Nat → Nat
  | 0, bucket_i => bucket_i
  | fuel + 1, bucket_i =>
    if bucket_i < BUCKET_NUM ∧ c_Bucket_Sizes[bucket_i]! ≠ bucket_size then
      find_bucket_go bucket_size fuel (bucket_i + 1)
    else
      bucket_i

/-- Bucket index recovered by xfree from a decoded size. -/
def find_bucket_i (bucket_size : Nat) : Nat := find_bucket_go bucket_size 22 0

/-- xfree (xmalloc.c line 458) on the bucket state: read the flag at
ptr - 1; 0xFF is the munmap path (outside this per-bucket state);
a flag below ARENA_NUM recovers the header from the 4-byte self-offset
at ptr - 5, decodes the bucket and pushes; any other flag is the
fatal corruption exit, modelled as none.  The stack lookup by base
address stands for the C directly dereferencing the recovered header
pointer; a base not on the stack would be a wild pointer dereference
and is also none. -/
def xfree_m (st : AState) (p : Nat) : Option AState :=
  let flag := load st.mem8 (p - 1)
  if flag = c_Non_Bucket_Flag then
    some st
  else if flag < ARENA_NUM then
    let addr := p - c_Bucket_Metadata_Size
    let headerBase := addr - load st.mem32 addr
    match st.stack.find? (fun ch => ch.base = headerBase) with
    | some ch =>
      let bucket_size := parse_header_size ch.size
      let bucket_i := find_bucket_i bucket_size
      some { st with stack := push_bucket bucket_i headerBase addr st.stack }
    | none => none
  else
    none

/-! ### Driving the allocator -/

/-- One public operation on the bucket under test. -/
inductive AllocOp where
  | alloc
  | free (p : Nat)
deriving DecidableEq

/-- Run a list of operations, collecting the pointers the allocations
returned (most recent first).  A fatal xfree aborts the run with none. -/
def runOps (bucket_i : Nat) : List AllocOp → AState → List Nat → Option (AState × List Nat)
  | [], st, trace => some (st, trace)
  | AllocOp.alloc :: ops, st, trace =>
    let r := pop_bucket bucket_i st
    runOps bucket_i ops r.1 (r.2 :: trace)
  | AllocOp.free p :: ops, st, trace =>
    match xfree_m st p with
    | some st2 => runOps bucket_i ops st2 trace
    | none => none

/-- State after process start for one (bucket, arena) cell: the
constructor hook maps exactly one chunk and pushes it (xmalloc.c lines
582-584); its base is taken as address 0 and fresh mappings continue
above it. -/
def init_state (bucket_i : Nat) : AState :=
  { stack := [mmap_bucket bucket_i 0]
    mem32 := []
    mem8 := []
    nextBase := chunk_bytes bucket_i }


/-- Bitmap of a bucket-19 chunk whose first m slots (0 to m - 1) are
taken: the first m / 64 words are all-ones and the next word carries
its top m % 64 bits (MSB-first slot order within a word). -/
def prefix_bitmap (m : Nat) : Nat :=
  ((1 <<< (64 * (m / 64))) - 1) +
    (((1 <<< (m % 64)) - 1) <<< (64 * (m / 64) + 64 - m % 64))

/-- Stack of the bucket-19 cell after k consecutive allocations from
the startup state (0 <= k <= 5452): the search starts at
last_offset + 1 = 1, so pops 1 to k take slots 1 to k, and the single
startup chunk at base 0 has slots 1 to k marked taken. -/
def fill_stack (k : Nat) : List Chunk :=
  [{ base := 0, size := gen_header_size (c_Bucket_Sizes[19]!), last_offset := k,
     bitmap := prefix_bitmap (k + 1) - (1 <<< 63) }]

/-- The mem32 entries written by allocations k + 1 to k + c of the
bucket-19 fill, most recent first: pop of slot j stores the
self-offset 20000 + j * 6149 at that same address (the base is 0). -/
def mem32_block (k c : Nat) : List (Nat × Nat) :=
  (List.range c).map fun i => (20000 + (k + c - i) * 6149, 20000 + (k + c - i) * 6149)

/-- The mem8 entries written by allocations k + 1 to k + c: the arena
byte 0 at offset 4 past the self-offset. -/
def mem8_block (k c : Nat) : List (Nat × Nat) :=
  (List.range c).map fun i => (20000 + (k + c - i) * 6149 + 4, 0)

/-- The pointers returned by allocations k + 1 to k + c, most recent
first: slot j has payload pointer 20005 + j * 6149. -/
def trace_block (k c : Nat) : List Nat :=
  (List.range c).map fun i => 20005 + (k + c - i) * 6149

/-- The mem32 entries written by the last 53 allocations of the
bucket-19 fill (slots 5401 to 5452, then slot 0 after the wrap), most
recent first. -/
def mem32_final : List (Nat × Nat) := (20000, 20000) :: mem32_block 5400 52

/-- The mem8 entries written by the last 53 allocations. -/
def mem8_final : List (Nat × Nat) := (20004, 0) :: mem8_block 5400 52

/-- The pointers returned by the last 53 allocations, most recent
first. -/
def trace_final : List Nat := 20005 :: trace_block 5400 52

/-- Stack of the bucket-19 cell once all 5453 slots are taken; the
5453rd pop wrapped to slot 0, so last_offset is 0. -/
def full_stack_19 : List Chunk :=
  [{ base := 0, size := gen_header_size (c_Bucket_Sizes[19]!), last_offset := 0,
     bitmap := prefix_bitmap 5453 }]

/-- Accumulated mem32 contents after j slices of 300 allocations,
most recent slice first. -/
def mem32_upto : Nat → List (Nat × Nat)
  | 0 => []
  | j + 1 => mem32_block (300 * j) 300 ++ mem32_upto j

/-- Accumulated mem8 contents after j slices of 300 allocations. -/
def mem8_upto : Nat → List (Nat × Nat)
  | 0 => []
  | j + 1 => mem8_block (300 * j) 300 ++ mem8_upto j

/-- Accumulated trace after j slices of 300 allocations. -/
def trace_upto : Nat → List Nat
  | 0 => []
  | j + 1 => trace_block (300 * j) 300 ++ trace_upto j

/-! ## Helper results

The bucket-19 fill of 5453 allocations is verified in slices of 300:
each slice is replayed by evaluation from a closed-form state with
empty memory (chain_step), and the extension results show that a run
consisting only of allocations never reads the memory or the trace,
it only pushes new entries, so the slices compose. -/

/-- Running a concatenation of operation lists runs the pieces in
sequence. -/
theorem runOps_append (b : Nat) (l1 l2 : List AllocOp) : ∀ (st : AState) (tr : List Nat),
    runOps b (l1 ++ l2) st tr = (runOps b l1 st tr).bind fun r => runOps b l2 r.1 r.2 := by
  induction l1 with
  | nil => intro st tr; rfl
  | cons op ops ih =>
    intro st tr
    cases op with
    | alloc => simp only [List.cons_append, runOps]; exact ih _ _
    | free p =>
      simp only [List.cons_append, runOps]
      cases xfree_m st p with
      | none => rfl
      | some st2 => exact ih _ _

/-- Binding a present optional value applies the continuation. -/
theorem obind_some {a b : Type} (x : a) (f : a → Option b) : (some x).bind f = f x := rfl

/-- pop_bucket never reads mem32, mem8: running it over a state with
accumulated memory is running it over the same stack with empty
memory and pushing the new entries on top. -/
theorem pop_bucket_extend (b : Nat) (stk : List Chunk) (nb : Nat) (m32 m8 : List (Nat × Nat)) :
    pop_bucket b (AState.mk stk m32 m8 nb) =
      (AState.mk (pop_bucket b (AState.mk stk [] [] nb)).1.stack
        ((pop_bucket b (AState.mk stk [] [] nb)).1.mem32 ++ m32)
        ((pop_bucket b (AState.mk stk [] [] nb)).1.mem8 ++ m8)
        (pop_bucket b (AState.mk stk [] [] nb)).1.nextBase,
       (pop_bucket b (AState.mk stk [] [] nb)).2) := by
  simp only [pop_bucket]
  cases h : pop_walk (bitmap_size b) stk with
  | none => simp
  | some v =>
    obtain ⟨stk2, bb, oo⟩ := v
    simp

/-- A run consisting only of allocations ignores the accumulated
memory and trace: it equals the run from empty memory with the
accumulated entries appended below the new ones. -/
theorem runOps_alloc_extend (b : Nat) : ∀ (k : Nat) (stk : List Chunk) (nb : Nat)
    (m32 m8 : List (Nat × Nat)) (tr : List Nat),
    runOps b (List.replicate k AllocOp.alloc) (AState.mk stk m32 m8 nb) tr =
      (runOps b (List.replicate k AllocOp.alloc) (AState.mk stk [] [] nb) []).map
        (fun r => (AState.mk r.1.stack (r.1.mem32 ++ m32) (r.1.mem8 ++ m8) r.1.nextBase,
                   r.2 ++ tr)) := by
  intro k
  induction k with
  | zero => intro stk nb m32 m8 tr; simp [List.replicate, runOps]
  | succ k ih =>
    intro stk nb m32 m8 tr
    simp only [List.replicate_succ, runOps]
    rw [pop_bucket_extend b stk nb m32 m8]
    rcases hE : pop_bucket b (AState.mk stk [] [] nb) with ⟨⟨Pstk, Pm32, Pm8, Pnb⟩, Pptr⟩
    dsimp only
    rw [ih, ih Pstk Pnb Pm32 Pm8 [Pptr]]
    cases runOps b (List.replicate k AllocOp.alloc) (AState.mk Pstk [] [] Pnb) [] with
    | none => simp
    | some r => simp [List.append_assoc]

set_option maxHeartbeats 8000000 in
/-- Replay, by evaluation, of each 300-allocation slice of the
bucket-19 fill: from the closed state with slots 1 to 300 j taken and
empty memory, 300 further allocations take the next 300 slots and
write the corresponding self-offset and arena entries. -/
theorem chain_step : ∀ j, j < 18 →
    runOps 19 (List.replicate 300 AllocOp.alloc)
        (AState.mk (fill_stack (300 * j)) [] [] (chunk_bytes 19)) [] =
    some (AState.mk (fill_stack (300 * (j + 1))) (mem32_block (300 * j) 300)
        (mem8_block (300 * j) 300) (chunk_bytes 19), trace_block (300 * j) 300) := by
  decide

/-- Composition of the slices: after 300 j allocations from the
startup state, the stack, the memory and the trace have the
accumulated closed form. -/
theorem chain_upto : ∀ j, j ≤ 18 →
    runOps 19 (List.replicate (300 * j) AllocOp.alloc) (init_state 19) [] =
    some (AState.mk (fill_stack (300 * j)) (mem32_upto j) (mem8_upto j) (chunk_bytes 19),
      trace_upto j) := by
  intro j
  induction j with
  | zero => intro _; decide
  | succ j ih =>
    intro hj
    rw [Nat.mul_succ, List.replicate_add, runOps_append, ih (by omega)]
    simp only [obind_some]
    rw [runOps_alloc_extend, chain_step j (by omega)]
    simp [mem32_upto, mem8_upto, trace_upto, Nat.mul_succ]

set_option maxHeartbeats 1000000 in
/-- The full bucket-19 fill: 5453 consecutive allocations from the
startup state take every slot of the startup chunk (slots 1 to 5452,
then slot 0 after the wrap), leaving the all-taken stack and the
accumulated memory and trace. -/
theorem reach_full_19 :
    runOps 19 (List.replicate 5453 AllocOp.alloc) (init_state 19) [] =
    some (AState.mk full_stack_19 (mem32_final ++ mem32_upto 18)
        (mem8_final ++ mem8_upto 18) (chunk_bytes 19), trace_final ++ trace_upto 18) := by
  have h5400 := chain_upto 18 (by omega)
  rw [show (300 * 18 : Nat) = 5400 from rfl] at h5400
  have h53 : runOps 19 (List.replicate 53 AllocOp.alloc)
      (AState.mk (fill_stack 5400) [] [] (chunk_bytes 19)) [] =
      some (AState.mk full_stack_19 mem32_final mem8_final (chunk_bytes 19), trace_final) := by
    decide
  rw [show (5453 : Nat) = 5400 + 53 from rfl, List.replicate_add, runOps_append, h5400]
  simp only [obind_some]
  rw [runOps_alloc_extend, h53]
  rfl

/-! ## C1 -/

/-- C1: the claim states that xfree clears the bitmap bit of exactly
the slot being freed, at index (p - 5 - header - sizeof(header)) /
slot_stride, so that allocating and then freeing returns the bitmap
to zero.  The code adds sizeof(page_header) instead of subtracting
it: on a fresh bucket-19 chunk at base 0, the first allocation
returns p = 26154 (slot 1, packed bitmap 1 <<< 62), and xfree of that
pointer computes offset 7 — the claim formula gives 1 — and leaves
the bitmap at 1 <<< 62, which is not zero. -/
theorem C1_push_bucket_clears_wrong_bit :
    push_offset 19 0 26149 = 7
  ∧ (26149 - 0 - sizeof_page_header) / slot_stride 19 = 1
  ∧ (runOps 19 [AllocOp.alloc, AllocOp.free 26154] (init_state 19) []).map
      (fun r => (r.2, r.1.stack.map fun ch => (ch.bitmap, ch.last_offset))) =
      some ([26154], [(1 <<< 62, 1)])
  ∧ (1 <<< 62 : Nat) ≠ 0 := by
  exact ⟨by decide, by decide, by decide, by decide⟩

/-! ## C2 -/

/-- C2: the claim that every pointer returned by an allocation is
distinct from every other live allocation fails on the code.  After
the 5453 allocations that fill the startup chunk of bucket 19,
freeing the pointer 33507459 of slot 5446 clears the bitmap bit of
slot 5452 instead (push_bucket adds sizeof(page_header) rather than
subtracting it), so the next allocation returns 33544353, the pointer
of slot 5452 — the very pointer the 5452nd allocation returned, and
that allocation was never freed: the one freed pointer differs from
it. -/
theorem C2_duplicate_live_pointer :
    (runOps 19 (List.replicate 5453 AllocOp.alloc ++ [AllocOp.free 33507459, AllocOp.alloc])
        (init_state 19) []).map (fun r => (r.2.get? 0, r.2.get? 2)) =
      some (some 33544353, some 33544353)
  ∧ (33507459 : Nat) ≠ 33544353 := by
  refine ⟨?_, by decide⟩
  rw [runOps_append, reach_full_19]
  decide

/-! ## C3 -/

/-- Bitmap words past the 2497 of the struct read as zero for any
bitmap value confined to the struct. -/
theorem word_of_oob (bitmap w : Nat) (hB : bitmap < 1 <<< 159808) (hw : 2497 ≤ w) :
    word_of bitmap w = 0 := by
  unfold word_of
  have h1 : bitmap >>> (64 * w) = bitmap / 2 ^ (64 * w) := Nat.shiftRight_eq_div_pow _ _
  have h2 : bitmap < 2 ^ (64 * w) := by
    have h3 : (1 : Nat) <<< 159808 = 2 ^ 159808 := by
      rw [Nat.shiftLeft_eq, one_mul]
    have h4 : (2 : Nat) ^ 159808 ≤ 2 ^ (64 * w) := Nat.pow_le_pow_right (by omega) (by omega)
    omega
  rw [h1, Nat.div_eq_of_lt h2]

/-- Fuel-indexed bound on the pop_bucket scan: however the cursor
moves (single steps modulo n, or the unreduced 64-slot skip), it
never exceeds 2497 * 64 = 159808, and no bitmap word with index above
2497 is ever read, for any slot count up to 159780 and any bitmap
confined to its 2497 words. -/
theorem scan_loop_bounded : ∀ (fuel bitmap last_offset n offset maxW : Nat),
    0 < n → n ≤ 159780 → bitmap < 1 <<< 159808 → offset ≤ 159808 → maxW ≤ 2497 →
    (scan_loop bitmap last_offset n fuel offset maxW).offset ≤ 159808 ∧
    (scan_loop bitmap last_offset n fuel offset maxW).maxWord ≤ 2497 := by
  intro fuel
  induction fuel with
  | zero =>
    intro bitmap last n offset maxW _ _ _ h4 h5
    exact ⟨h4, h5⟩
  | succ fuel ih =>
    intro bitmap last n offset maxW h1 h2 h3 h4 h5
    simp only [scan_loop]
    by_cases he : offset = last
    · simp only [if_pos he]
      exact ⟨h4, h5⟩
    · simp only [if_neg he]
      by_cases hskip : offset % 64 = 0 ∧ word_of bitmap (offset / 64) = c_64_All_High
      · simp only [if_pos hskip]
        have hw : offset / 64 < 2497 := by
          by_contra hc
          push_neg at hc
          have h0 := word_of_oob bitmap (offset / 64) h3 hc
          rw [h0] at hskip
          exact absurd hskip.2 (by decide)
        refine ih bitmap last n (offset + 64) _ h1 h2 h3 (by omega) ?_
        exact Nat.max_le.mpr ⟨h5, by omega⟩
      · simp only [if_neg hskip]
        by_cases hfree : word_of bitmap (offset / 64) &&& (c_64_MSB_High >>> (offset % 64)) = 0
        · simp only [if_pos hfree]
          exact ⟨h4, Nat.max_le.mpr ⟨h5, by omega⟩⟩
        · simp only [if_neg hfree]
          refine ih bitmap last n ((offset + 1) % n) _ h1 h2 h3 ?_ ?_
          · exact le_trans (Nat.le_of_lt (Nat.mod_lt _ h1)) (by omega)
          · exact Nat.max_le.mpr ⟨h5, by omega⟩

/-- Every bucket has between 1 and 159780 slots. -/
theorem bitmap_size_bounds : ∀ c, c < 21 → 0 < bitmap_size c ∧ bitmap_size c ≤ 159780 := by
  decide

/-- C3 counterexample: the 64-slot skip is not reduced modulo
slot_count.  For class 0 (slot count 159780) and the chunk state
whose bitmap word 2496 is all-ones with last_offset = 159743, the
pop-entry scan lands on the MSB of that word at cursor 159744, skips
to 159808 > 159780, and reads bitmap word index 2497 — refuting both
"the cursor never exceeds slot_count(c)" and "the scanner never reads
a bitmap word with index >= 2497". -/
theorem C3_cex_skip_beyond_bitmap :
    scan_loop (18446744073709551615 <<< 159744) 159743 (bitmap_size 0) 10
        ((159743 + 1) % bitmap_size 0) 0 = ⟨true, 159808, 2497⟩
  ∧ bitmap_size 0 = 159780
  ∧ 159780 < 159808 := by
  exact ⟨by decide, by decide, by decide⟩

/-- C3 amended: the initial cursor and the single-step advance of the
pop_bucket scan are reduced modulo slot_count(c), but the 64-slot
skip is plain addition, so the cursor can exceed slot_count(c) and
the scanner can read bitmap word index 2497 (one past the array); for
every class and every bitmap confined to its 2497 words the cursor
never exceeds 159808 = 2497 * 64 and no word index above 2497 is
ever read. -/
theorem C3_scan_cursor_bounds : ∀ c, c < 21 → ∀ bitmap last_offset fuel : Nat,
    bitmap < 1 <<< 159808 →
    (scan_loop bitmap last_offset (bitmap_size c) fuel
        ((last_offset + 1) % bitmap_size c) 0).offset ≤ 159808 ∧
    (scan_loop bitmap last_offset (bitmap_size c) fuel
        ((last_offset + 1) % bitmap_size c) 0).maxWord ≤ 2497 := by
  intro c hc bitmap last fuel hB
  obtain ⟨hpos, hle⟩ := bitmap_size_bounds c hc
  exact scan_loop_bounded fuel bitmap last _ _ 0 hpos hle hB
    (le_trans (Nat.le_of_lt (Nat.mod_lt _ hpos)) (by omega)) (by omega)

/-- Witness for the C3 bound at class 0 with the zero bitmap. -/
theorem C3_scan_cursor_bounds_witness :
    (scan_loop 0 0 (bitmap_size 0) 5 ((0 + 1) % bitmap_size 0) 0).offset ≤ 159808 :=
  (C3_scan_cursor_bounds 0 (by decide) 0 0 5 (by decide)).1

/-! ## C4 -/

/-- C4: the claim compares the new size against the payload capacity
P - 9 and copies min(n, P - 9); the code compares against the whole
mapping size P and copies min(n, P), including the 9 metadata bytes.
A request of 10000 bytes gets a mapping of P = 12288; resizing it to
n = 12285 > P - 9 keeps the old pointer although the claim requires a
fresh allocation, and resizing it to 13000 copies 12288 bytes
although the payload holds only P - 9 = 12279. -/
theorem C4_large_realloc_thresholds :
    xrealloc_large_act 12288 12285 = RAction.keep
  ∧ 12288 - 9 < 12285
  ∧ (mmap_non_bucket 10000).mapSize = 12288
  ∧ xrealloc_large_act 12288 13000 = RAction.reallocMove 13000 12288
  ∧ 12288 - 9 < 12288 := by
  exact ⟨by decide, by decide, by decide, by decide, by decide⟩

/-! ## C5 -/

/-- C5 counterexample: the claim reads the shrink bound as the exact
fraction two thirds of C, but the code computes the integer division
C * 2 / 3.  At class size C = 16 and new size n = 10, the exact
condition holds (3 * 10 < 2 * 16, and 16 is not the minimum class),
so the claim requires a fresh allocation, yet the code keeps the old
pointer because 10 < 32 / 3 = 10 is false. -/
theorem C5_cex_two_thirds_boundary :
    xrealloc_bucket_act 16 10 = RAction.keep
  ∧ 3 * 10 < 2 * 16
  ∧ (16 : Nat) ≠ 8
  ∧ xrealloc_bucket_act 16 10 ≠ RAction.reallocMove 10 (min 10 16) := by
  exact ⟨by decide, by decide, by decide, by decide⟩

/-- C5 amended: with the shrink bound read as the integer division
the code computes — reallocate when n < C * 2 / 3, i.e. when
3 n + 3 <= 2 C — the bucket resize policy holds: the old pointer is
kept exactly when n <= 8192, n <= C and (2 C <= 3 n + 2 or C = 8);
otherwise a fresh block of n bytes is allocated, min(n, C) bytes are
copied and the old block is freed; in particular a resize to the
exact class size keeps the pointer for every class. -/
theorem C5_bucket_resize_policy :
    (∀ C n : Nat, xrealloc_bucket_act C n = RAction.keep ↔
        (n ≤ 8192 ∧ n ≤ C ∧ (2 * C ≤ 3 * n + 2 ∨ C = 8)))
  ∧ (∀ C n : Nat, (8192 < n ∨ C < n ∨ (3 * n + 3 ≤ 2 * C ∧ C ≠ 8)) →
        xrealloc_bucket_act C n = RAction.reallocMove n (min n C))
  ∧ (∀ c, c < 21 →
        xrealloc_bucket_act (c_Bucket_Sizes[c]!) (c_Bucket_Sizes[c]!) = RAction.keep) := by
  refine ⟨?_, ?_, by decide⟩
  · intro C n
    simp only [xrealloc_bucket_act, BUCKET_MAX, BUCKET_MIN]
    by_cases h : 8192 < n ∨ C < n ∨ (n < C * 2 / 3 ∧ C ≠ 8)
    · rw [if_pos h]
      constructor
      · intro heq; exact RAction.noConfusion heq
      · intro hr; exfalso; omega
    · rw [if_neg h]
      constructor
      · intro _; omega
      · intro _; rfl
  · intro C n h
    simp only [xrealloc_bucket_act, BUCKET_MAX, BUCKET_MIN]
    rw [if_pos (show 8192 < n ∨ C < n ∨ (n < C * 2 / 3 ∧ C ≠ 8) by omega)]
    congr 1
    rcases Nat.lt_or_ge n C with hlt | hge
    · rw [if_pos hlt, min_eq_left (le_of_lt hlt)]
    · rw [if_neg (by omega), min_eq_right hge]

/-- Witness for the C5 policy: resizing the minimum class to its own
size keeps the pointer. -/
theorem C5_bucket_resize_policy_witness :
    xrealloc_bucket_act (c_Bucket_Sizes[0]!) (c_Bucket_Sizes[0]!) = RAction.keep :=
  C5_bucket_resize_policy.2.2 0 (by decide)

/-! ## C6 -/

/-- Invariant of the xmalloc selection loop: starting from an index
whose predecessors are all too small, it returns the least index
whose bucket size fits the request. -/
theorem bucket_index_go_spec (bytes : Nat) (hb : bytes ≤ 8192) :
    ∀ fuel bucket_i, 21 ≤ bucket_i + fuel → bucket_i ≤ 20 →
    (∀ j, j < bucket_i → c_Bucket_Sizes[j]! < bytes) →
    bytes ≤ c_Bucket_Sizes[bucket_index_go bytes fuel bucket_i]! ∧
    ∀ j, j < bucket_index_go bytes fuel bucket_i → c_Bucket_Sizes[j]! < bytes := by
  intro fuel
  induction fuel with
  | zero =>
    intro i h1 h2 _
    exact absurd h1 (by omega)
  | succ fuel ih =>
    intro i h1 h2 hinv
    simp only [bucket_index_go]
    by_cases h : c_Bucket_Sizes[i]! < bytes ∧ i < BUCKET_NUM - 1
    · rw [if_pos h]
      refine ih (i + 1) (by omega) ?_ ?_
      · have h2b := h.2
        simp only [BUCKET_NUM] at h2b
        omega
      · intro j hj
        rcases Nat.lt_succ_iff_lt_or_eq.mp hj with hj2 | hj2
        · exact hinv j hj2
        · exact hj2 ▸ h.1
    · rw [if_neg h]
      refine ⟨?_, hinv⟩
      by_cases hi : i < BUCKET_NUM - 1
      · have hs : ¬ c_Bucket_Sizes[i]! < bytes := fun hlt => h ⟨hlt, hi⟩
        omega
      · have hi20 : i = 20 := by
          simp only [BUCKET_NUM] at hi
          omega
        subst hi20
        have h20 : c_Bucket_Sizes[20]! = 8192 := by decide
        omega

/-- C6: xmalloc selects, for every request of at most 8192 bytes, the
smallest class whose size is at least the request (so a request of
exactly a class size uses that class and one byte more moves to the
next class), and every request above 8192 bytes takes the large
direct-mapping path. -/
theorem C6_class_selection :
    (∀ n, n ≤ 8192 →
        xmalloc_select n = AllocPath.bucket (bucket_index n) ∧
        n ≤ c_Bucket_Sizes[bucket_index n]! ∧
        ∀ j, j < bucket_index n → c_Bucket_Sizes[j]! < n)
  ∧ (∀ n, 8192 < n → xmalloc_select n = AllocPath.large)
  ∧ (∀ c, c < 21 → bucket_index (c_Bucket_Sizes[c]!) = c)
  ∧ (∀ c, c < 20 → bucket_index (c_Bucket_Sizes[c]! + 1) = c + 1) := by
  refine ⟨?_, ?_, by decide, by decide⟩
  · intro n hn
    refine ⟨?_, ?_⟩
    · simp only [xmalloc_select, BUCKET_MAX]
      rw [if_neg (by omega)]
    · exact bucket_index_go_spec n hn 21 0 (by omega) (by omega)
        (fun j hj => absurd hj (Nat.not_lt_zero j))
  · intro n hn
    simp only [xmalloc_select, BUCKET_MAX]
    rw [if_pos (by omega)]

/-- Witness for C6: the boundary request 8193 takes the large path. -/
theorem C6_class_selection_witness : xmalloc_select 8193 = AllocPath.large :=
  C6_class_selection.2.1 8193 (by decide)

/-! ## C7 -/

/-- C7: for each of the 21 classes, decoding the one-byte encoded
size produced for that class size returns exactly the class size, and
the decoder computes 2 ^ k plus, when the intermediate bit (the top
bit of the byte) is set, 2 ^ (k - 1), where k is the low seven bits. -/
theorem C7_codec_roundtrip : ∀ c, c < 21 →
    parse_header_size (gen_header_size (c_Bucket_Sizes[c]!)) = c_Bucket_Sizes[c]!
  ∧ parse_header_size (gen_header_size (c_Bucket_Sizes[c]!)) =
      2 ^ (gen_header_size (c_Bucket_Sizes[c]!) % 128) +
        (if 128 ≤ gen_header_size (c_Bucket_Sizes[c]!) then
          2 ^ (gen_header_size (c_Bucket_Sizes[c]!) % 128 - 1) else 0) := by
  decide

/-- Witness for C7 at class 1 (size 12, an intermediate class). -/
theorem C7_codec_roundtrip_witness :
    parse_header_size (gen_header_size (c_Bucket_Sizes[1]!)) = c_Bucket_Sizes[1]! :=
  (C7_codec_roundtrip 1 (by decide)).1

/-! ## C8 -/

/-- Reading back the little-endian 8-byte store of mmap_non_bucket
returns the stored value, for any value below 2 ^ 64. -/
theorem read_u64_store (v : Nat) (hv : v < 18446744073709551616) :
    read_u64 (fun a => if a < 8 then v / 256 ^ a % 256 else if a = 8 then c_Non_Bucket_Flag
      else 0) 0 = v := by
  simp only [read_u64]
  norm_num
  omega

/-- C8: for every large request n, the mapping has size
round_up_to_page(n + 9), a multiple of 4096; the first 8 bytes hold
the total mapping size, the byte at offset 8 is the sentinel 0xFF,
and the returned pointer is at offset 9 — so the byte at p - 1 is
0xFF and the 8-byte value at p - 9 is the mapping size.  (The bound
n < 2 ^ 63 keeps the size_t arithmetic of the source exact.) -/
theorem C8_mmap_non_bucket_layout : ∀ n : Nat, 8192 < n → n < 9223372036854775808 →
    (mmap_non_bucket n).mapSize = (n + 9 + 4095) / 4096 * 4096
  ∧ (mmap_non_bucket n).mapSize % 4096 = 0
  ∧ (mmap_non_bucket n).retOff = 9
  ∧ (mmap_non_bucket n).byteAt ((mmap_non_bucket n).retOff - 1) = 0xFF
  ∧ read_u64 (mmap_non_bucket n).byteAt ((mmap_non_bucket n).retOff - 9) =
      (mmap_non_bucket n).mapSize := by
  intro n h1 h2
  simp only [mmap_non_bucket, c_Non_Bucket_Metadata_Size, SMALL_PAGE, c_Non_Bucket_Flag]
  refine ⟨?_, ?_, trivial, ?_, ?_⟩
  · by_cases h : (n + 9) % 4096 = 0
    · rw [if_pos h]; omega
    · rw [if_neg h]; omega
  · apply Nat.mul_mod_left
  · norm_num
  · have hb : ((n + 9) / 4096 + (if (n + 9) % 4096 = 0 then 0 else 1)) * 4096 <
        18446744073709551616 := by
      by_cases h : (n + 9) % 4096 = 0
      · rw [if_pos h]; omega
      · rw [if_neg h]; omega
    exact read_u64_store _ hb

/-- Witness for C8: allocating 10000 bytes maps 12288 bytes, with the
sentinel at p - 1 and the size 12288 readable at p - 9. -/
theorem C8_mmap_non_bucket_layout_witness :
    (mmap_non_bucket 10000).mapSize = 12288
  ∧ (mmap_non_bucket 10000).byteAt ((mmap_non_bucket 10000).retOff - 1) = 0xFF
  ∧ read_u64 (mmap_non_bucket 10000).byteAt ((mmap_non_bucket 10000).retOff - 9) = 12288 := by
  obtain ⟨h1, h2, h3, h4, h5⟩ := C8_mmap_non_bucket_layout 10000 (by decide) (by decide)
  refine ⟨?_, h4, ?_⟩
  · rw [h1]
  · rw [h5, h1]

/-! ## C9 -/

/-- A claimed find of the stack walk lies on the returned stack, with
its last_offset set to the claimed slot offset and its base the
returned base. -/
theorem pop_walk_mem (n : Nat) : ∀ (stack stack2 : List Chunk) (b o : Nat),
    pop_walk n stack = some (stack2, b, o) →
    ∃ ch, ch ∈ stack2 ∧ ch.base = b ∧ ch.last_offset = o := by
  intro stack
  induction stack with
  | nil =>
    intro stack2 b o h
    simp [pop_walk] at h
  | cons ch rest ih =>
    intro stack2 b o h
    simp only [pop_walk] at h
    by_cases hf : (scan_loop ch.bitmap ch.last_offset n SCAN_FUEL
        ((ch.last_offset + 1) % n) 0).found = true
    · rw [if_pos hf] at h
      simp only [Option.some_inj, Prod.mk.injEq] at h
      obtain ⟨hs, hb, ho⟩ := h
      subst hs; subst hb; subst ho
      exact ⟨claim_slot ch _, List.mem_cons_self _ _, rfl, rfl⟩
    · rw [if_neg hf] at h
      cases hrec : pop_walk n rest with
      | none =>
        rw [hrec] at h
        exact absurd h (by simp)
      | some v =>
        obtain ⟨rest2, b2, o2⟩ := v
        rw [hrec] at h
        simp only [Option.some_inj, Prod.mk.injEq] at h
        obtain ⟨hs, hb, ho⟩ := h
        subst hs; subst hb; subst ho
        obtain ⟨ch2, hmem, hb2, ho2⟩ := ih rest2 b2 o2 hrec
        exact ⟨ch2, List.mem_cons_of_mem _ hmem, hb2, ho2⟩

/-- C9 counterexample: last_offset does not track frees.  On a fresh
bucket-19 chunk, two allocations take slots 1 and 2 (last_offset 2);
freeing the first pointer, 26154 of slot 1, leaves last_offset at 2,
while the claim says it should equal the slot index 1 of the freed
slot. -/
theorem C9_cex_free_leaves_cursor :
    (runOps 19 [AllocOp.alloc, AllocOp.alloc, AllocOp.free 26154] (init_state 19) []).map
      (fun r => r.1.stack.map fun ch => ch.last_offset) = some [2]
  ∧ (26154 - c_Bucket_Metadata_Size - 0 - sizeof_page_header) / slot_stride 19 = 1
  ∧ (2 : Nat) ≠ 1 := by
  exact ⟨by decide, by decide, by decide⟩

/-- C9 amended: pop_bucket records in the popped chunk's last_offset
exactly the slot index it hands out — the returned pointer is that
chunk's base plus sizeof(page_header) plus last_offset times the slot
stride, plus the 5 metadata bytes — and this value seeds the next
scan; push_bucket (the free path) never modifies last_offset. -/
theorem C9_last_offset_updates :
    (∀ bucket_i addr : Nat, ∀ ch : Chunk,
        (push_chunk bucket_i addr ch).last_offset = ch.last_offset)
  ∧ (∀ bucket_i : Nat, ∀ st : AState, ∃ ch, ch ∈ (pop_bucket bucket_i st).1.stack ∧
        (pop_bucket bucket_i st).2 =
          ch.base + sizeof_page_header + ch.last_offset * slot_stride bucket_i + 5) := by
  refine ⟨fun _ _ _ => rfl, ?_⟩
  intro bucket_i st
  simp only [pop_bucket]
  cases h : pop_walk (bitmap_size bucket_i) st.stack with
  | none =>
    dsimp only
    exact ⟨claim_slot (mmap_bucket bucket_i st.nextBase) 0, List.mem_cons_self _ _, rfl⟩
  | some v =>
    obtain ⟨stack2, bb, oo⟩ := v
    dsimp only
    obtain ⟨ch, hmem, hbase, hlast⟩ := pop_walk_mem (bitmap_size bucket_i) st.stack stack2 bb oo h
    refine ⟨ch, hmem, ?_⟩
    rw [hbase, hlast]

/-! ## C10 -/

/-- C10: xrealloc on a non-null pointer whose flag byte is neither
the large sentinel 0xFF nor an arena index below 8 reports the
corruption and terminates, having performed no allocation, no copy
and no free. -/
theorem C10_resize_bad_flag_fatal : ∀ flag lp es n : Nat,
    flag ≠ c_Non_Bucket_Flag → ARENA_NUM ≤ flag →
    xrealloc_act false flag lp es n = RAction.fatal := by
  intro flag lp es n h1 h2
  simp only [ARENA_NUM] at h2
  simp only [xrealloc_act, ARENA_NUM]
  rw [if_neg Bool.false_ne_true, if_neg h1, if_neg (by omega)]

/-- Witness for C10 at flag 9. -/
theorem C10_resize_bad_flag_fatal_witness : xrealloc_act false 9 0 0 0 = RAction.fatal :=
  C10_resize_bad_flag_fatal 9 0 0 0 (by decide) (by decide)
